import Mathlib

/-!
Verification of the review-document parsing and convergence engine.

The development embeds, in Lean, the two Python modules that form the core
of the repository:

* `convergence_analyzer.py`  — cross-round issue tracking, per-round
  statistics, trend analysis and termination checking
  (`ConvergenceAnalyzer`);
* `review_quality_check.py`  — per-document structural validation
  (`ReviewQualityChecker`).

Modelling conventions, used throughout:

* a document is a list of lines (`List String`); the Python code reads the
  whole file into one string, but every regular expression the engine uses
  is line-local (none of its pieces can match a newline in the places that
  matter for the analysed behaviour), so the line-oriented embedding is
  faithful;
* Python `re` searches are embedded as hand-written scanners over
  `List Char` that mirror each pattern's structure; pipe-delimited table
  rows are matched on the segments produced by splitting a line at `|`,
  which is exactly how the row patterns (whose cells are `[^|]+`, `\w+`,
  or fixed literals framed by single spaces) consume a line;
* Python integers are `Int`; Python list indexing `l[i]` with a possibly
  negative index is `pyAt` below; `str.replace` is `replaceAll`;
* Python character classes: `\d` is `Char.isDigit`, `\w` is
  alphanumeric-or-underscore, `\s` is `Char.isWhitespace`.
-/

namespace ReviewEngine

/-- Model of Python's `\w` character class (ASCII view). -/
def isWordChar (c : Char) : Bool := c.isAlphanum || c = '_'

/-- Model of Python `str.strip()`: removes leading and trailing
whitespace. -/
def stripChars (cs : List Char) : List Char :=
  (((cs.dropWhile Char.isWhitespace).reverse).dropWhile Char.isWhitespace).reverse

/-- Splits a line at every `|`, the way the pipe-delimited row patterns
decompose a line into cells.  `splitPipe "a|b"` is `["a","b"]` as
character lists; a line with no pipe yields one segment. -/
def splitPipe : List Char → List (List Char)
  | [] => [[]]
  | '|' :: rest => [] :: splitPipe rest
  | c :: rest =>
    match splitPipe rest with
    | s :: ss => (c :: s) :: ss
    | [] => [[c]]

/-- Membership of a pattern as a contiguous substring, modelling Python's
`pattern in content` on one line. -/
def containsSub (s pat : List Char) : Bool :=
  pat.isPrefixOf s ||
    match s with
    | [] => false
    | _ :: t => containsSub t pat

/-- Worker of `replaceAll`; the fuel argument (instantiated with the
text length, which every step strictly decreases by at least one) only
serves to make the recursion structural. -/
def replaceAllGo : Nat → List Char → List Char → List Char
  | _, [], _ => []
  | 0, s, _ => s
  | fuel + 1, c :: rest, pat =>
    if pat ≠ [] ∧ pat.isPrefixOf (c :: rest) then
      replaceAllGo fuel (rest.drop (pat.length - 1)) pat
    else
      c :: replaceAllGo fuel rest pat

/-- Model of Python `str.replace(pat, "")` for a nonempty pattern:
left-to-right removal of every non-overlapping occurrence. -/
def replaceAll (s pat : List Char) : List Char :=
  replaceAllGo s.length s pat

/-- Cell of the form `" B-<digits> "` — the capture `\| (B-\d+) \|` of the
statistics pattern in `_extract_round_stats`.  Returns the captured id. -/
def bIdCell (seg : List Char) : Option String :=
  match seg with
  | ' ' :: 'B' :: '-' :: rest =>
    let ds := rest.takeWhile Char.isDigit
    if ds ≠ [] ∧ rest.drop ds.length = [' '] then
      some (String.mk ('B' :: '-' :: ds))
    else none
  | _ => none

/-- Cell of the form `" <P>-<digits> "` for a severity letter
`P ∈ {B,M,C,R,Q}` — the capture `(B-\d+|M-\d+|C-\d+|R-\d+|Q-\d+)` framed
by single spaces.  Returns the captured id. -/
def idCell (seg : List Char) : Option String :=
  match seg with
  | ' ' :: p :: '-' :: rest =>
    if p = 'B' || p = 'M' || p = 'C' || p = 'R' || p = 'Q' then
      let ds := rest.takeWhile Char.isDigit
      if ds ≠ [] ∧ rest.drop ds.length = [' '] then
        some (String.mk (p :: '-' :: ds))
      else none
    else none
  | _ => none

/-- Cell of the form `" <text> "` with nonempty pipe-free text — the
capture `\| ([^|]+) \|` (the single framing spaces are the literal spaces
of the pattern; the text may itself contain further spaces). -/
def anyCell (seg : List Char) : Option String :=
  match seg with
  | ' ' :: rest =>
    if rest.dropLast ≠ [] ∧ rest.getLast? = some ' ' ∧
        (rest.dropLast.all fun c => c ≠ '|') then
      some (String.mk rest.dropLast)
    else none
  | _ => none

/-- Cell of the form `" v<digits> "` — the literal `\| v\d+ \|` column of
the tracker's row pattern. -/
def vCell (seg : List Char) : Bool :=
  match seg with
  | ' ' :: 'v' :: rest =>
    let ds := rest.takeWhile Char.isDigit
    ds ≠ [] && rest.drop ds.length = [' ']
  | _ => false

/-- Cell of the form `" <word> "` with a nonempty `\w+` word — the status
capture `\| (\w+) \|` of both table-row patterns.  A multi-word value such
as `Accepted Risk` does not fit this cell. -/
def wordCell (seg : List Char) : Option String :=
  match seg with
  | ' ' :: rest =>
    if rest.dropLast ≠ [] ∧ rest.getLast? = some ' ' ∧
        rest.dropLast.all isWordChar then
      some (String.mk rest.dropLast)
    else none
  | _ => none

/-- Cell holding one of the three status literals of the statistics
pattern: `\| (Open|Resolved|Accepted Risk) \|`. -/
def statusCellA (seg : List Char) : Option String :=
  if seg = " Open ".data then some "Open"
  else if seg = " Resolved ".data then some "Resolved"
  else if seg = " Accepted Risk ".data then some "Accepted Risk"
  else none

/-- Non-overlapping scan for four-cell rows `\| c1 \| c2 \| c3 \| c4 \|`
over the pipe-split segments of a line, mirroring `re.findall`: a match
needs four consecutive interior segments (a pipe before the first and
after the fourth); after a match the scan resumes after its final pipe.
The head of the argument list is the segment before the candidate opening
pipe. -/
def scanRows (f : List Char → List Char → List Char → List Char → Option α) :
    List (List Char) → List α
  | _s0 :: a :: b :: c :: d :: e :: tail =>
    match f a b c d with
    | some m => m :: scanRows f (e :: tail)
    | none => scanRows f (a :: b :: c :: d :: e :: tail)
  | _ => []

/-- Lazy search, used by the statistics pattern, for the first status
segment (followed by a closing pipe) at or after the current position;
returns the segments after the match. -/
def findStatusA : List (List Char) → Option (String × List (List Char))
  | a :: b :: tail =>
    match statusCellA a with
    | some st => some (st, b :: tail)
    | none => findStatusA (b :: tail)
  | _ => none

theorem findStatusA_shrink (l : List (List Char)) :
    ∀ st rest', findStatusA l = some (st, rest') → rest'.length < l.length := by
  induction l with
  | nil => intro st r h; simp [findStatusA] at h
  | cons a t ih =>
    intro st r h
    cases t with
    | nil => simp [findStatusA] at h
    | cons b tail =>
      rw [findStatusA] at h
      cases hs : statusCellA a with
      | some s =>
        rw [hs] at h
        simp only [Option.some.injEq, Prod.mk.injEq] at h
        rw [← h.2]
        simp
      | none =>
        rw [hs] at h
        have := ih st r h
        simp only [List.length_cons] at this ⊢
        omega

/-- Worker of `scanStats`; the fuel argument (instantiated with the
segment count, which every recursive call strictly decreases) only makes
the recursion structural. -/
def scanStatsGo : Nat → List (List Char) → List (String × String)
  | _, [] => []
  | 0, _ => []
  | fuel + 1, _s0 :: rest =>
    match rest with
    | idseg :: _r2h :: r2t =>
      match bIdCell idseg with
      | some id =>
        match findStatusA r2t with
        | some (st, rest') => (id, st) :: scanStatsGo fuel rest'
        | none => scanStatsGo fuel rest
      | none => scanStatsGo fuel rest
    | _ => []

/-- Non-overlapping scan for the statistics pattern
`\| (B-\d+) \|.*?\| (Open|Resolved|Accepted Risk) \|` over the pipe-split
segments of one line: a `" B-<n> "` cell, then (lazily) any later status
cell on the same line.  Returns the `(id, status)` captures in match
order. -/
def scanStats (segs : List (List Char)) : List (String × String) :=
  scanStatsGo segs.length segs

/-- Per-round aggregate counts, mirroring the `RoundStats` dataclass of
`convergence_analyzer.py` (Python ints are modelled as `Int`). -/
structure RoundStats where
  round : String
  blocker : Int := 0
  major : Int := 0
  completeness : Int := 0
  risk : Int := 0
  question : Int := 0
  total : Int := 0
deriving Repr, DecidableEq

/-- One tracked issue, mirroring the `IssueTracker` dataclass: `changes`
is the append-only `{round, status}` observation list. -/
structure IssueTracker where
  id : String
  level : String
  title : String
  first_round : String
  status : String
  changes : List (String × String) := []
deriving Repr, DecidableEq

/-- Statistics extraction of `ConvergenceAnalyzer._extract_round_stats`:
every match of `\| (B-\d+) \|.*?\| (Open|Resolved|Accepted Risk) \|` in
the document increments the counter selected by the matched id's severity
letter (the pattern only ever captures `B-` ids, so only `blocker` can
grow — the other branches are kept as the source has them), and `total`
is the sum of the five counters. -/
def extract_round_stats (content : List String) (round_num : String) : RoundStats :=
  let ms := content.flatMap fun line => scanStats (splitPipe line.data)
  let stats := ms.foldl
    (fun (stats : RoundStats) (m : String × String) =>
      let level := String.mk (m.1.data.takeWhile fun c => c ≠ '-')
      if level = "B" then { stats with blocker := stats.blocker + 1 }
      else if level = "M" then { stats with major := stats.major + 1 }
      else if level = "C" then { stats with completeness := stats.completeness + 1 }
      else if level = "R" then { stats with risk := stats.risk + 1 }
      else if level = "Q" then { stats with question := stats.question + 1 }
      else stats)
    { round := round_num }
  { stats with
    total := stats.blocker + stats.major + stats.completeness +
      stats.risk + stats.question }

/-- Row capture of `ConvergenceAnalyzer._track_issues`:
`\| (B-\d+|M-\d+|C-\d+|R-\d+|Q-\d+) \| ([^|]+) \| v\d+ \| (\w+) \|`.
Returns `(id, stripped title, status)` for a matching four-cell row. -/
def trackRowCells (a b c d : List Char) : Option (String × String × String) :=
  match idCell a with
  | none => none
  | some id =>
    match anyCell b with
    | none => none
    | some title =>
      if vCell c then
        match wordCell d with
        | none => none
        | some status => some (id, String.mk (stripChars title.data), status)
      else none

/-- All tracker-pattern matches of one document, in reading order. -/
def trackMatches (content : List String) : List (String × String × String) :=
  content.flatMap fun line => scanRows trackRowCells (splitPipe line.data)

/-- One step of `ConvergenceAnalyzer._track_issues`: if the id is new it
is registered (Python dict insertion order: appended at the end) with
`first_round` the current round and `level` the text before the id's
dash; then the `{round, status}` observation is appended to its history
and its current status is overwritten (last writer wins). -/
def trackOne (round_num : String) (all_issues : List IssueTracker)
    (m : String × String × String) : List IssueTracker :=
  let (issue_id, title, status) := m
  let level := String.mk (issue_id.data.takeWhile fun c => c ≠ '-')
  let all_issues :=
    if all_issues.any fun t => t.id = issue_id then all_issues
    else all_issues ++
      [{ id := issue_id, level := level, title := title,
         first_round := round_num, status := status }]
  all_issues.map fun t =>
    if t.id = issue_id then
      { t with changes := t.changes ++ [(round_num, status)], status := status }
    else t

/-- `ConvergenceAnalyzer._track_issues` over one document: folds every
matched row of the status table into the issue map. -/
def track_issues (all_issues : List IssueTracker) (content : List String)
    (round_num : String) : List IssueTracker :=
  (trackMatches content).foldl (trackOne round_num) all_issues

/-- Python list indexing `l[i]` (negative indices count from the end).
Out-of-range accesses raise in Python and are never reached by the
embedded call sites; the model returns `dflt` there. -/
def pyAt (l : List α) (i : Int) (dflt : α) : α :=
  let j : Int := if i < 0 then (l.length : Int) + i else i
  if j < 0 then dflt else (l.get? j.toNat).getD dflt

/-- Result of `ConvergenceAnalyzer._analyze_trend`, mirroring the result
dict: `prediction` is `None`-able, and the `changes` key is only present
(`some`) in the two-or-more-rounds branch. -/
structure TrendResult where
  direction : String
  description : String
  prediction : Option String
  changes : Option (Int × Int × Int) := none
deriving Repr, DecidableEq

/-- Dummy round used as the (unreachable) default of Python indexing. -/
def dummyRound : RoundStats := { round := "" }

/-- `ConvergenceAnalyzer._analyze_trend`: with fewer than two rounds the
direction is unknown; otherwise the deltas between the two most recent
rounds are classified — `converging` when blocker and major both strictly
decrease, else `diverging` when either strictly increases, else `stable`;
a prediction is only produced in the converging case. -/
def analyze_trend (rounds : List RoundStats) : TrendResult :=
  if rounds.length < 2 then
    { direction := "unknown", description := "数据不足，无法判断趋势",
      prediction := none }
  else
    let latest := pyAt rounds (-1) dummyRound
    let previous := pyAt rounds (-2) dummyRound
    let blocker_change := latest.blocker - previous.blocker
    let major_change := latest.major - previous.major
    let total_change := latest.total - previous.total
    let dir :=
      if blocker_change < 0 ∧ major_change < 0 then ("converging", "收敛中")
      else if blocker_change > 0 ∨ major_change > 0 then ("diverging", "发散中")
      else ("stable", "趋于稳定")
    let prediction :=
      if dir.1 = "converging" then
        let remaining := latest.total - latest.blocker - latest.major
        if remaining > 0 ∧ total_change < 0 then
          some ("预计 " ++ toString (remaining.fdiv (max 1 (-total_change)) + 1) ++
            " 轮后可收敛")
        else some "即将收敛"
      else none
    { direction := dir.1, description := dir.2, prediction := prediction,
      changes := some (blocker_change, major_change, total_change) }

/-- `ConvergenceAnalyzer._get_change`: for index `-1` it returns the raw
counters of the last round (not a delta); otherwise it subtracts the
round at `index - 1` when `index > 0` — for any other index `previous`
falls back to `current`, making the result zero. -/
def get_change (rounds : List RoundStats) (index : Int) : Int × Int × Int :=
  if index = -1 then
    let r := pyAt rounds index dummyRound
    (r.blocker, r.major, r.total)
  else
    let current := pyAt rounds index dummyRound
    let previous := if index > 0 then pyAt rounds (index - 1) dummyRound else current
    (current.blocker - previous.blocker, current.major - previous.major,
      current.total - previous.total)

/-- One entry of the termination-condition checklist. -/
structure TermCond where
  condition : String
  met : Bool
deriving Repr, DecidableEq

/-- Result of `ConvergenceAnalyzer._check_termination`, mirroring the two
result-dict shapes: with no rounds only `can_terminate` and `reason` are
present; otherwise `conditions`, `remaining_blocker` and `remaining_major`
are present and `reason` is absent. -/
structure TermResult where
  can_terminate : Bool
  reason : Option String := none
  conditions : Option (List TermCond) := none
  remaining_blocker : Option Int := none
  remaining_major : Option Int := none
deriving Repr, DecidableEq

/-- `ConvergenceAnalyzer._check_termination`: builds the checklist —
condition 1 is appended (met) only when there are at least two rounds and
both `_get_change(-1)` and `_get_change(-2)` have non-positive blocker and
major components; condition 2 is always appended, met exactly when the
latest round's `blocker + major` is zero and otherwise recording the
count as an unmet negative signal; condition 3 is appended (met) at
sixteen or more rounds.  `can_terminate` is the disjunction of `met` over
the entries whose text differs from the literal
`"仍有 N 个 Blocker/Major 未解决"`. -/
def check_termination (rounds : List RoundStats) : TermResult :=
  match rounds with
  | [] => { can_terminate := false, reason := some "无评审数据" }
  | _ :: _ =>
    let latest := pyAt rounds (-1) dummyRound
    let conditions : List TermCond :=
      (if 2 ≤ rounds.length then
        let latest_change := get_change rounds (-1)
        let prev_change := get_change rounds (-2)
        if latest_change.1 ≤ 0 ∧ latest_change.2.1 ≤ 0 then
          if prev_change.1 ≤ 0 ∧ prev_change.2.1 ≤ 0 then
            [{ condition := "连续2轮无新增 Blocker/Major", met := true }]
          else []
        else []
      else []) ++
      (let unresolvedCount := latest.blocker + latest.major
       if unresolvedCount = 0 then
         [{ condition := "所有 Blocker/Major 已解决", met := true }]
       else
         [{ condition := "仍有 " ++ toString unresolvedCount ++
              " 个 Blocker/Major 未解决", met := false }]) ++
      (if 16 ≤ rounds.length then
        [{ condition := "达到最大轮次 (16)", met := true }]
      else [])
    let can_terminate :=
      (conditions.filter fun c =>
        c.condition ≠ "仍有 N 个 Blocker/Major 未解决").any fun c => c.met
    { can_terminate := can_terminate, conditions := some conditions,
      remaining_blocker := some latest.blocker,
      remaining_major := some latest.major }

/-- Filename filter of `self.review_dir.glob("Review-v*.md")`: the glob
`*` matches any (possibly empty) character sequence, so a name matches
exactly when it has the literal head and tail with no overlap. -/
def globReviewMatch (name : String) : Bool :=
  "Review-v".data.isPrefixOf name.data && ".md".data.isSuffixOf name.data &&
    11 ≤ name.data.length

/-- Lexicographic code-point comparison of character lists — Python's
`str` ordering (and Lean's `String.lt`). -/
def charListLt : List Char → List Char → Bool
  | [], [] => false
  | [], _ :: _ => true
  | _ :: _, [] => false
  | a :: as, b :: bs =>
    if a.toNat < b.toNat then true
    else if b.toNat < a.toNat then false
    else charListLt as bs

/-- Python string `<`. -/
def pyStrLt (a b : String) : Bool := charListLt a.data b.data

/-- Insertion step of a stable sort by Python string comparison. -/
def insertByName (x : String × List String) :
    List (String × List String) → List (String × List String)
  | [] => [x]
  | y :: ys => if pyStrLt y.1 x.1 then y :: insertByName x ys else x :: y :: ys

/-- Model of `sorted(...)` over the globbed directory listing: a stable
sort of the matching filenames in Python's (lexical) string order.  A
directory is a list of `(filename, lines)` pairs. -/
def sortedReports (dir : List (String × List String)) :
    List (String × List String) :=
  (dir.filter fun f => globReviewMatch f.1).foldr insertByName []

/-- Round label of `md_file.stem.replace("Review-v", "")`: the stem drops
the `.md` suffix (guaranteed by the glob), and every occurrence of
`Review-v` is removed. -/
def roundNumOfFile (name : String) : String :=
  String.mk (replaceAll (name.data.take (name.data.length - 3)) "Review-v".data)

/-- Round statistics accumulated by `_load_all_reports`, in processing
order (lexically sorted filenames). -/
def loadRounds (dir : List (String × List String)) : List RoundStats :=
  (sortedReports dir).map fun f => extract_round_stats f.2 (roundNumOfFile f.1)

/-- Issue histories accumulated by `_load_all_reports`, folding
`_track_issues` over the documents in processing order. -/
def loadIssues (dir : List (String × List String)) : List IssueTracker :=
  (sortedReports dir).foldl
    (fun acc f => track_issues acc f.2 (roundNumOfFile f.1)) []

/-- Structured result of `ConvergenceAnalyzer.analyze` (the
recommendation strings are console presentation over the same data and
are not modelled). -/
structure AnalysisResult where
  rounds : List RoundStats
  trend : TrendResult
  termination_check : TermResult
deriving Repr, DecidableEq

/-- `ConvergenceAnalyzer.analyze` over a directory of documents. -/
def analyze (dir : List (String × List String)) : AnalysisResult :=
  let rounds := loadRounds dir
  { rounds := rounds, trend := analyze_trend rounds,
    termination_check := check_termination rounds }

/-- One extracted issue, mirroring the `Issue` dataclass of
`review_quality_check.py`. -/
structure Issue where
  id : String
  level : String
  title : String
  first_round : String
  current_round : String
  status : String
  line_number : Nat
deriving Repr, DecidableEq

/-- Parsed document, mirroring the `ReviewReport` dataclass (its unused
`chapters` dict, written by no code path, is not modelled). -/
structure ReviewReport where
  version : String
  depth : String
  round : String
  issues : List Issue := []
  has_checkpoint : Bool := false
deriving Repr, DecidableEq

/-- Mutable state of one `ReviewQualityChecker` instance: the filename,
the document content (as lines), the report being filled in, and the
accumulated error and warning lists. -/
structure CheckerState where
  file_name : String
  content : List String
  report : ReviewReport
  errors : List String
  warnings : List String
deriving Repr, DecidableEq

/-- State of a freshly constructed `ReviewQualityChecker(file_path)`
after reading the file: empty report, no errors, no warnings. -/
def initState (name : String) (lines : List String) : CheckerState :=
  { file_name := name, content := lines,
    report := { version := "", depth := "", round := "" },
    errors := [], warnings := [] }

/-- Match of `# 技术方案评审报告\s*v(\d+)` anchored at the current
position; returns the captured digits. -/
def versionAt (cs : List Char) : Option String :=
  if "# 技术方案评审报告".data.isPrefixOf cs then
    match (cs.drop "# 技术方案评审报告".data.length).dropWhile Char.isWhitespace with
    | 'v' :: more =>
      let ds := more.takeWhile Char.isDigit
      if ds ≠ [] then some (String.mk ds) else none
    | _ => none
  else none

/-- Match of `\*\*评审粒度\*\*:\s*(quick|standard|deep)` (case
insensitive) anchored at the current position; the source lowercases the
capture, so the canonical lowercase literal is returned. -/
def depthAt (cs : List Char) : Option String :=
  if "**评审粒度**:".data.isPrefixOf cs then
    let rest := (cs.drop "**评审粒度**:".data.length).dropWhile Char.isWhitespace
    if ((rest.take 5).map Char.toLower) = "quick".data then some "quick"
    else if ((rest.take 8).map Char.toLower) = "standard".data then some "standard"
    else if ((rest.take 4).map Char.toLower) = "deep".data then some "deep"
    else none
  else none

/-- Match of `\*\*评审轮次\*\*:\s*v(\d+)` anchored at the current
position; returns the captured digits. -/
def roundAt (cs : List Char) : Option String :=
  if "**评审轮次**:".data.isPrefixOf cs then
    match (cs.drop "**评审轮次**:".data.length).dropWhile Char.isWhitespace with
    | 'v' :: more =>
      let ds := more.takeWhile Char.isDigit
      if ds ≠ [] then some (String.mk ds) else none
    | _ => none
  else none

/-- `re.search` within one line: the matcher is tried at every start
position, leftmost first. -/
def searchLine (f : List Char → Option α) : List Char → Option α
  | [] => f []
  | c :: t =>
    match f (c :: t) with
    | some r => some r
    | none => searchLine f t

/-- `re.search` over the document: first match in reading order. -/
def searchContent (f : List Char → Option α) (lines : List String) : Option α :=
  lines.findSome? fun l => searchLine f l.data

/-- `ReviewQualityChecker._extract_metadata`: each of version, depth and
round is extracted independently; a missing pattern leaves the field as
it was (the empty string of the fresh report). -/
def extract_metadata (st : CheckerState) : CheckerState :=
  { st with report := { st.report with
      version := (searchContent versionAt st.content).getD st.report.version,
      depth := (searchContent depthAt st.content).getD st.report.depth,
      round := (searchContent roundAt st.content).getD st.report.round } }

/-- Filename validity `re.match(r"^Review-v\d+\.md$", name)`. -/
def fileNameOk (name : String) : Bool :=
  "Review-v".data.isPrefixOf name.data &&
    (let rest := name.data.drop 8
     let ds := rest.takeWhile Char.isDigit
     !ds.isEmpty && rest.drop ds.length == ".md".data)

/-- `ReviewQualityChecker._check_filename`: a mismatching filename
appends two error lines (the complaint and a remediation hint). -/
def check_filename (st : CheckerState) : CheckerState :=
  if fileNameOk st.file_name then st
  else
    { st with errors := st.errors ++
        ["文件名不符合规范: " ++ st.file_name,
         "  期望格式: Review-v1.md, Review-v2.md 等"] }

/-- The five required chapter titles (`REQUIRED_CHAPTERS`). -/
def REQUIRED_CHAPTERS : List String :=
  ["评审元信息", "本轮评审结论", "问题总览", "问题详细记录", "评审收敛性自检"]

/-- Substring containment `chapter in content` (chapter titles contain no
newline, so per-line containment is the whole-text containment). -/
def contentHas (lines : List String) (pat : String) : Bool :=
  lines.any fun l => containsSub l.data pat.data

/-- `ReviewQualityChecker._check_chapters`: one error per missing
required chapter, in the fixed list order. -/
def chapterErrors (lines : List String) : List String :=
  REQUIRED_CHAPTERS.filterMap fun ch =>
    if contentHas lines ch then none else some ("缺少必需章节: " ++ ch)

/-- `ReviewQualityChecker._check_chapters` as a state step. -/
def check_chapters (st : CheckerState) : CheckerState :=
  { st with errors := st.errors ++ chapterErrors st.content }

/-- Heading capture `^##{1,3}\s*\[(<P>-\d+)\]` for severity letter `P`:
two to four leading hashes, optional whitespace, then the bracketed id. -/
def headingCapture (p : Char) (cs : List Char) : Option String :=
  let hs := cs.takeWhile fun c => c = '#'
  if 2 ≤ hs.length ∧ hs.length ≤ 4 then
    match (cs.drop hs.length).dropWhile Char.isWhitespace with
    | '[' :: q :: '-' :: more =>
      if q = p then
        let ds := more.takeWhile Char.isDigit
        if ds ≠ [] ∧ (more.drop ds.length).head? = some ']' then
          some (String.mk (p :: '-' :: ds))
        else none
      else none
    | _ => none
  else none

/-- The `LEVEL_PATTERN` table, in its (insertion-ordered) iteration
order. -/
def LEVEL_PATTERN : List (String × Char) :=
  [("Blocker", 'B'), ("Major", 'M'), ("Completeness", 'C'),
   ("Risk", 'R'), ("Question", 'Q')]

/-- Heading scan of `ReviewQualityChecker._extract_issues`: every line is
tried against the five level patterns in table order; each match yields a
draft issue with default status `Open` and its 1-based line number. -/
def scanHeadings (round : String) (lines : List String) : List Issue :=
  (List.enumFrom 1 lines).flatMap fun li =>
    LEVEL_PATTERN.filterMap fun lp =>
      (headingCapture lp.2 li.2.data).map fun id =>
        { id := id, level := lp.1, title := "", first_round := round,
          current_round := round, status := "Open", line_number := li.1 }

/-- Row capture of `ReviewQualityChecker._extract_status_from_table`:
`\| (B-\d+|M-\d+|C-\d+|R-\d+|Q-\d+) \| ([^|]+) \| ([^|]+) \| (\w+) \|`;
only the id and status captures are consumed by the source. -/
def checkerRowCells (a b c d : List Char) : Option (String × String) :=
  match idCell a with
  | none => none
  | some id =>
    match anyCell b, anyCell c, wordCell d with
    | some _, some _, some status => some (id, status)
    | _, _, _ => none

/-- All status-table rows of the document, in reading order. -/
def statusTableRows (lines : List String) : List (String × String) :=
  lines.flatMap fun line => scanRows checkerRowCells (splitPipe line.data)

/-- Lookup in the `status_map` dict built by successive assignment over
the rows: the last row for an id wins. -/
def statusLookup (rows : List (String × String)) (id : String) : Option String :=
  (rows.reverse.find? fun r => r.1 = id).map fun r => r.2

/-- Status-enrichment pass of `_extract_status_from_table`: every already
collected issue whose id appears in the table gets that status; nothing
else changes and no new issue is created. -/
def applyStatusTable (lines : List String) (issues : List Issue) : List Issue :=
  let rows := statusTableRows lines
  issues.map fun i =>
    match statusLookup rows i.id with
    | some s => { i with status := s }
    | none => i

/-- `ReviewQualityChecker._extract_issues` as a state step: the heading
scan appends to the report's issue list, then the table pass enriches the
statuses. -/
def extract_issues (st : CheckerState) : CheckerState :=
  { st with report := { st.report with
      issues := applyStatusTable st.content
        (st.report.issues ++ scanHeadings st.report.round st.content) } }

/-- First-occurrence deduplication, modelling the iteration over the
Python `set` of duplicated ids (whose order is unspecified; the choice
only affects the order inside one message string). -/
def firstDedup : List String → List String
  | [] => []
  | x :: xs => x :: (firstDedup xs).filter fun y => y ≠ x

/-- `ReviewQualityChecker._check_issue_uniqueness`: the ids occurring
more than once, as one error message when there are any. -/
def uniquenessErrors (issues : List Issue) : List String :=
  let ids := issues.map fun i => i.id
  let duplicates := firstDedup (ids.filter fun x => 1 < ids.count x)
  if duplicates = [] then []
  else ["问题编号重复: " ++ String.intercalate ", " duplicates]

/-- `ReviewQualityChecker._check_issue_uniqueness` as a state step. -/
def check_issue_uniqueness (st : CheckerState) : CheckerState :=
  { st with errors := st.errors ++ uniquenessErrors st.report.issues }

/-- The legal status vocabulary (`VALID_STATES`). -/
def VALID_STATES : List String :=
  ["Open", "Resolved", "Accepted Risk", "Pending Confirmation"]

/-- Warning text for an issue whose status is outside `VALID_STATES`. -/
def statusWarning (id status : String) : String :=
  "[" ++ id ++ "] 状态'" ++ status ++ "'不在标准状态列表中"

/-- `ReviewQualityChecker._check_issue_lifecycle`: one warning per issue
with an illegal status (the `Resolved` branch of the source is a no-op). -/
def lifecycleWarnings (issues : List Issue) : List String :=
  issues.filterMap fun i =>
    if VALID_STATES.contains i.status then none
    else some (statusWarning i.id i.status)

/-- `ReviewQualityChecker._check_issue_lifecycle` as a state step. -/
def check_issue_lifecycle (st : CheckerState) : CheckerState :=
  { st with warnings := st.warnings ++ lifecycleWarnings st.report.issues }

/-- `ReviewQualityChecker._check_checkpoint`: records the checkpoint
marker (the inner confirmation branch of the source is a no-op). -/
def check_checkpoint (st : CheckerState) : CheckerState :=
  if contentHas st.content "已触发人工 Checkpoint" then
    { st with report := { st.report with has_checkpoint := true } }
  else st

/-- `ReviewQualityChecker.check` from a given state: the seven steps in
call order (the file-existence guard is outside the embedded text
model). -/
def checkFrom (st : CheckerState) : CheckerState :=
  check_checkpoint (check_issue_lifecycle (check_issue_uniqueness
    (extract_issues (check_chapters (check_filename (extract_metadata st))))))

/-- One `check_review_report` invocation: a fresh checker is constructed
for the file and run once. -/
def checkDocument (name : String) (lines : List String) : CheckerState :=
  checkFrom (initState name lines)

/-- The triple returned by `ReviewQualityChecker.check`:
`(len(errors) == 0, errors + warnings, errors)`. -/
def checkOutcome (st : CheckerState) : Bool × List String × List String :=
  (st.errors.isEmpty, st.errors ++ st.warnings, st.errors)

theorem get?_append2_one {α : Type} (l : List α) (a b : α) :
    (l ++ [a, b]).get? (l.length + 1) = some b := by
  induction l with
  | nil => rfl
  | cons x xs ih => simpa using ih

theorem get?_append2_zero {α : Type} (l : List α) (a b : α) :
    (l ++ [a, b]).get? l.length = some a := by
  induction l with
  | nil => rfl
  | cons x xs ih => simpa using ih

/-- Python `l[-1]` on a list with at least two elements. -/
theorem pyAt_append2_neg1 {α : Type} (l : List α) (a b d : α) :
    pyAt (l ++ [a, b]) (-1) d = b := by
  have hj : (((l ++ [a, b]).length : Int) + (-1)) = ((l.length + 1 : Nat) : Int) := by
    simp only [List.length_append, List.length_cons, List.length_nil]
    push_cast
    ring
  simp only [pyAt, hj]
  rw [if_pos (by norm_num : (-1 : Int) < 0), if_neg (by omega), Int.toNat_natCast,
    get?_append2_one]
  rfl

/-- Python `l[-2]` on a list with at least two elements. -/
theorem pyAt_append2_neg2 {α : Type} (l : List α) (a b d : α) :
    pyAt (l ++ [a, b]) (-2) d = a := by
  have hj : (((l ++ [a, b]).length : Int) + (-2)) = ((l.length : Nat) : Int) := by
    simp only [List.length_append, List.length_cons, List.length_nil]
    push_cast
    ring
  simp only [pyAt, hj]
  rw [if_pos (by norm_num : (-2 : Int) < 0), if_neg (by omega), Int.toNat_natCast,
    get?_append2_zero]
  rfl

theorem filtered_any_negEntry (s : String) (p : TermCond → Bool) :
    ((List.filter p [{ condition := s, met := false }]).any fun c => c.met) = false := by
  by_cases hp : p { condition := s, met := false } = true <;>
    simp [List.filter_cons, hp]

theorem anyFilter_ite3 {P Q R : Prop} [Decidable P] [Decidable Q] [Decidable R]
    (e : TermCond) (p : TermCond → Bool) (hp : p e = true) :
    ((List.filter p (if P then (if Q then (if R then [e] else []) else []) else [])).any
      fun c => c.met) = (decide P && decide Q && decide R && e.met) := by
  split_ifs with h1 h2 h3 <;> simp_all [List.filter_cons]

theorem anyFilter_ite1 {P : Prop} [Decidable P] (e : TermCond) (p : TermCond → Bool)
    (hp : p e = true) :
    ((List.filter p (if P then [e] else [])).any fun c => c.met) = (decide P && e.met) := by
  split_ifs with h <;> simp_all [List.filter_cons]

theorem anyFilter_iteNeg {P : Prop} [Decidable P] (e1 : TermCond) (s : String)
    (p : TermCond → Bool) (hp : p e1 = true) (hm : e1.met = true) :
    ((List.filter p (if P then [e1] else [{ condition := s, met := false }])).any
      fun c => c.met) = decide P := by
  split_ifs with h
  · simp_all [List.filter_cons]
  · rw [filtered_any_negEntry]
    simp [h]

/-- C1: the claim says the Cross-Round Issue Tracker processes
`Review-v<digits>.md` files in ascending numeric order of the captured
digits.  The source sorts the globbed filenames lexically
(`sorted(self.review_dir.glob("Review-v*.md"))`), so for a directory
holding `Review-v9.md` and `Review-v10.md` the processed round sequence
is `["10", "9"]` — `v10` before `v9` — not the ascending numeric order
`["9", "10"]`. -/
theorem c1_rounds_processed_in_lexical_order :
    ((loadRounds [("Review-v9.md", []), ("Review-v10.md", [])]).map
      fun r => r.round) = ["10", "9"] ∧
    (["10", "9"] : List String) ≠ ["9", "10"] := by decide

/-- C2: the claim says condition C1 is reported met iff there are at
least two prior deltas and both consecutive deltas have non-positive
blocker and major components.  At rounds (4,4) → (3,3) → (2,2) both
deltas are (-1,-1), yet the embedded `_check_termination` reports no C1
entry at all: `_get_change(-1)` returns the raw latest counters (2,2,4)
rather than a delta, and `_get_change(-2)` compares the round with
itself, returning (0,0,0). -/
theorem c2_c1_condition_ignores_real_deltas :
    let rounds : List RoundStats :=
      [{ round := "1", blocker := 4, major := 4, total := 8 },
       { round := "2", blocker := 3, major := 3, total := 6 },
       { round := "3", blocker := 2, major := 2, total := 4 }]
    (2 ≤ rounds.length ∧
      (pyAt rounds (-1) dummyRound).blocker - (pyAt rounds (-2) dummyRound).blocker ≤ 0 ∧
      (pyAt rounds (-1) dummyRound).major - (pyAt rounds (-2) dummyRound).major ≤ 0 ∧
      (pyAt rounds (-2) dummyRound).blocker - (pyAt rounds (-3) dummyRound).blocker ≤ 0 ∧
      (pyAt rounds (-2) dummyRound).major - (pyAt rounds (-3) dummyRound).major ≤ 0) ∧
    get_change rounds (-1) = (2, 2, 4) ∧
    get_change rounds (-2) = (0, 0, 0) ∧
    (check_termination rounds).conditions =
      some [{ condition := "仍有 4 个 Blocker/Major 未解决", met := false }] ∧
    (check_termination rounds).can_terminate = false := by decide

/-- The scenario-A directory: round 1 declares `B-1`/`M-1` Open, round 2
declares both Resolved. -/
def scenarioADir : List (String × List String) :=
  [("Review-v1.md",
    ["| B-1 | Some issue | v1 | Open |", "| M-1 | Other issue | v1 | Open |"]),
   ("Review-v2.md",
    ["| B-1 | Some issue | v2 | Resolved |", "| M-1 | Other issue | v2 | Resolved |"])]

/-- C3: the claim expects scenario A (`B-1`/`M-1` Open in round 1,
Resolved in round 2) to yield zero remaining blockers and majors, a
converging trend and permission to terminate.  The embedded pipeline
instead counts every `B-` row of the overview table whatever its status
(and no `M-` row at all), so both rounds count one blocker, the trend is
stable, one blocker remains and termination is denied. -/
theorem c3_scenario_a_stable_not_converging :
    (analyze scenarioADir).rounds.map
        (fun r => (r.round, r.blocker, r.major, r.total)) =
      [("1", 1, 0, 1), ("2", 1, 0, 1)] ∧
    (analyze scenarioADir).termination_check.remaining_blocker = some 1 ∧
    (analyze scenarioADir).termination_check.remaining_major = some 0 ∧
    (analyze scenarioADir).trend.direction = "stable" ∧
    (analyze scenarioADir).termination_check.can_terminate = false := by decide

/-- C10: with an empty snapshot sequence the termination check denies
termination and returns only a reason, while every non-empty sequence
gets the conditions list and the remaining blocker/major counts and no
reason. -/
theorem c10_empty_directory_reason :
    ((check_termination []).can_terminate = false ∧
      (check_termination []).reason = some "无评审数据" ∧
      (check_termination []).conditions = none ∧
      (check_termination []).remaining_blocker = none ∧
      (check_termination []).remaining_major = none) ∧
    ∀ rounds : List RoundStats, rounds ≠ [] →
      (check_termination rounds).reason = none ∧
      ((check_termination rounds).conditions).isSome = true ∧
      ((check_termination rounds).remaining_blocker).isSome = true ∧
      ((check_termination rounds).remaining_major).isSome = true := by
  refine ⟨by decide, ?_⟩
  intro rounds h
  cases rounds with
  | nil => exact absurd rfl h
  | cons r rs => exact ⟨rfl, rfl, rfl, rfl⟩

/-- C4: with at least two rounds the Trend Analyzer classifies the delta
between the two most recent snapshots — converging iff blocker and major
both strictly decrease, else diverging iff either strictly increases,
else stable — and reports the blocker/major/total deltas; with fewer
than two rounds the direction is unknown and no prediction is produced.
At the claim's concrete snapshots the direction is converging with
deltas (-2, -1, -3). -/
theorem c4_trend_classification :
    (∀ (pre : List RoundStats) (a b : RoundStats),
      (analyze_trend (pre ++ [a, b])).direction =
        (if b.blocker - a.blocker < 0 ∧ b.major - a.major < 0 then "converging"
         else if b.blocker - a.blocker > 0 ∨ b.major - a.major > 0 then "diverging"
         else "stable") ∧
      (analyze_trend (pre ++ [a, b])).changes =
        some (b.blocker - a.blocker, b.major - a.major, b.total - a.total)) ∧
    (∀ rounds : List RoundStats, rounds.length < 2 →
      (analyze_trend rounds).direction = "unknown" ∧
      (analyze_trend rounds).prediction = none) ∧
    ((analyze_trend [{ round := "1", blocker := 2, major := 1, total := 5 },
        { round := "2", blocker := 0, major := 0, total := 2 }]).direction =
        "converging" ∧
      (analyze_trend [{ round := "1", blocker := 2, major := 1, total := 5 },
        { round := "2", blocker := 0, major := 0, total := 2 }]).changes =
        some (-2, -1, -3)) := by
  refine ⟨?_, ?_, by decide⟩
  · intro pre a b
    have hlen : ¬ ((pre ++ [a, b]).length < 2) := by
      simp only [List.length_append, List.length_cons, List.length_nil]
      omega
    simp only [analyze_trend, if_neg hlen, pyAt_append2_neg1, pyAt_append2_neg2]
    refine ⟨?_, ?_⟩
    · split_ifs <;> rfl
    · try rfl
      try trivial
  · intro rounds h
    refine ⟨?_, ?_⟩ <;> simp only [analyze_trend, if_pos h]

/-- Witness for C4 at the empty snapshot list (discharging the
fewer-than-two-rounds hypothesis). -/
theorem c4_trend_classification_witness :
    (analyze_trend ([] : List RoundStats)).direction = "unknown" ∧
    (analyze_trend ([] : List RoundStats)).prediction = none :=
  c4_trend_classification.2.1 [] (by decide)

/-- C5: for a non-empty snapshot sequence, `can_terminate` is true
exactly when one of the three positive conditions holds — the code's
condition 1 (two or more rounds with both `_get_change(-1)` and
`_get_change(-2)` non-positive in blocker and major), condition 2 (zero
outstanding blocker+major in the latest round), or condition 3 (sixteen
or more rounds); the unmet negative-signal entry never makes the
disjunction true.  In particular a single round with zero blockers and
majors terminates with only the condition-2 entry reported. -/
theorem c5_can_terminate_iff_positive_condition :
    (∀ rounds : List RoundStats, rounds ≠ [] →
      ((check_termination rounds).can_terminate = true ↔
        (2 ≤ rounds.length ∧
          ((get_change rounds (-1)).1 ≤ 0 ∧ (get_change rounds (-1)).2.1 ≤ 0) ∧
          ((get_change rounds (-2)).1 ≤ 0 ∧ (get_change rounds (-2)).2.1 ≤ 0)) ∨
        (pyAt rounds (-1) dummyRound).blocker +
            (pyAt rounds (-1) dummyRound).major = 0 ∨
        16 ≤ rounds.length)) ∧
    ((check_termination [{ round := "1" }]).can_terminate = true ∧
      (check_termination [{ round := "1" }]).conditions =
        some [{ condition := "所有 Blocker/Major 已解决", met := true }]) := by
  refine ⟨?_, by decide⟩
  intro rounds hne
  cases rounds with
  | nil => exact absurd rfl hne
  | cons r rs =>
    simp only [check_termination]
    rw [List.filter_append, List.filter_append, List.any_append, List.any_append,
      anyFilter_ite3 _ _ (by decide), anyFilter_iteNeg _ _ _ (by decide) rfl,
      anyFilter_ite1 _ _ (by decide)]
    simp only [Bool.and_true, Bool.or_eq_true, Bool.and_eq_true, decide_eq_true_eq]
    tauto

/-- One-round sequence with an outstanding blocker, used by the C5
witness. -/
def c5WitnessRounds : List RoundStats :=
  [{ round := "1", blocker := 1, major := 0, total := 1 }]

/-- Witness for C5 at a concrete one-round sequence with an outstanding
blocker (discharging the non-emptiness hypothesis). -/
theorem c5_can_terminate_iff_positive_condition_witness :
    (check_termination c5WitnessRounds).can_terminate = true ↔
      (2 ≤ c5WitnessRounds.length ∧
        ((get_change c5WitnessRounds (-1)).1 ≤ 0 ∧
          (get_change c5WitnessRounds (-1)).2.1 ≤ 0) ∧
        ((get_change c5WitnessRounds (-2)).1 ≤ 0 ∧
          (get_change c5WitnessRounds (-2)).2.1 ≤ 0)) ∨
      (pyAt c5WitnessRounds (-1) dummyRound).blocker +
          (pyAt c5WitnessRounds (-1) dummyRound).major = 0 ∨
      16 ≤ c5WitnessRounds.length :=
  c5_can_terminate_iff_positive_condition.1 c5WitnessRounds (by decide)

/-- Witness for C10 at a concrete one-round sequence. -/
theorem c10_empty_directory_reason_witness :
    (check_termination [{ round := "1" }]).reason = none ∧
    ((check_termination [{ round := "1" }]).conditions).isSome = true ∧
    ((check_termination [{ round := "1" }]).remaining_blocker).isSome = true ∧
    ((check_termination [{ round := "1" }]).remaining_major).isSome = true :=
  c10_empty_directory_reason.2 [{ round := "1" }] (by decide)

/-- C8: the status-table enrichment pass preserves every field of every
already-discovered issue except possibly `status`, preserves the list
length and the id sequence, and never synthesizes a new issue for a
table id absent from the heading scan. -/
theorem c8_table_pass_only_touches_status :
    ∀ (lines : List String) (issues : List Issue),
      ((applyStatusTable lines issues).map fun i =>
          (i.id, i.level, i.title, i.first_round, i.current_round, i.line_number)) =
        (issues.map fun i =>
          (i.id, i.level, i.title, i.first_round, i.current_round, i.line_number)) ∧
      ((applyStatusTable lines issues).map fun i => i.id) =
        (issues.map fun i => i.id) ∧
      (applyStatusTable lines issues).length = issues.length := by
  intro lines issues
  refine ⟨?_, ?_, by simp [applyStatusTable]⟩ <;>
  · induction issues with
    | nil => rfl
    | cons i is ih =>
      simp only [applyStatusTable, List.map_cons] at ih ⊢
      cases h : statusLookup (statusTableRows lines) i.id <;> simp [h, ih]

/-- Witness for C8 at a concrete document and issue list. -/
theorem c8_table_pass_only_touches_status_witness :
    ((applyStatusTable ["| B-1 | t | v1 | Resolved |"]
        [{ id := "B-1", level := "Blocker", title := "", first_round := "1",
           current_round := "1", status := "Open", line_number := 1 }]).map
      fun i => i.id) = ["B-1"] := by
  have h := (c8_table_pass_only_touches_status ["| B-1 | t | v1 | Resolved |"]
    [{ id := "B-1", level := "Blocker", title := "", first_round := "1",
       current_round := "1", status := "Open", line_number := 1 }]).2.1
  rw [h]
  rfl

/-- Round label extracted by the metadata scan over a fresh document. -/
def metadataRound (lines : List String) : String :=
  (searchContent roundAt lines).getD ""

/-- Filename error block appended by `_check_filename`. -/
def fileNameErrors (name : String) : List String :=
  if fileNameOk name then []
  else ["文件名不符合规范: " ++ name, "  期望格式: Review-v1.md, Review-v2.md 等"]

/-- Decomposition of one checker run: the error list is the filename
block, then the chapter block, then the id-uniqueness block; the warning
list comes from the lifecycle check alone; and the final issue list is
the status-enriched heading scan. -/
theorem checkDocument_fields (name : String) (lines : List String) :
    (checkDocument name lines).errors =
      fileNameErrors name ++ chapterErrors lines ++
        uniquenessErrors (applyStatusTable lines
          (scanHeadings (metadataRound lines) lines)) ∧
    (checkDocument name lines).warnings =
      lifecycleWarnings (applyStatusTable lines
        (scanHeadings (metadataRound lines) lines)) ∧
    (checkDocument name lines).report.issues =
      applyStatusTable lines (scanHeadings (metadataRound lines) lines) := by
  by_cases hf : fileNameOk name = true <;>
    by_cases hc : contentHas lines "已触发人工 Checkpoint" = true <;>
      refine ⟨?_, ?_, ?_⟩ <;>
        simp [checkDocument, checkFrom, initState, extract_metadata, check_filename,
          check_chapters, extract_issues, check_issue_uniqueness, check_issue_lifecycle,
          check_checkpoint, fileNameErrors, metadataRound, hf, hc]

theorem applyStatusTable_no_rows (lines : List String) (issues : List Issue)
    (h : statusTableRows lines = []) :
    applyStatusTable lines issues = issues := by
  simp [applyStatusTable, h, statusLookup]

/-- Every issue produced by the heading scan carries the default status
`Open`. -/
theorem scanHeadings_status_open (r : String) (lines : List String) :
    ∀ i ∈ scanHeadings r lines, i.status = "Open" := by
  intro i hi
  simp only [scanHeadings, List.mem_flatMap, List.mem_filterMap] at hi
  obtain ⟨li, _, lp, _, hmap⟩ := hi
  rw [Option.map_eq_some'] at hmap
  obtain ⟨idv, hcap, hrec⟩ := hmap
  rw [← hrec]

theorem applyStatusTable_ids (lines : List String) (issues : List Issue) :
    ((applyStatusTable lines issues).map fun i => i.id) =
      issues.map fun i => i.id := by
  induction issues with
  | nil => rfl
  | cons i is ih =>
    simp only [applyStatusTable, List.map_cons] at ih ⊢
    cases h : statusLookup (statusTableRows lines) i.id <;> simp [h, ih]

/-- The ids found by the heading scan do not depend on the round label
stored into the drafts. -/
theorem scanHeadings_ids (r r' : String) (lines : List String) :
    ((scanHeadings r lines).map fun i => i.id) =
      (scanHeadings r' lines).map fun i => i.id := by
  simp only [scanHeadings, List.map_flatMap, List.map_filterMap, Option.map_map]
  rfl

theorem uniquenessErrors_eq_of_ids (is1 is2 : List Issue)
    (h : (is1.map fun i => i.id) = is2.map fun i => i.id) :
    uniquenessErrors is1 = uniquenessErrors is2 := by
  unfold uniquenessErrors
  rw [h]

theorem mem_lifecycleWarnings (issues : List Issue) (i : Issue) (hm : i ∈ issues)
    (hbad : i.status ∉ VALID_STATES) :
    statusWarning i.id i.status ∈ lifecycleWarnings issues := by
  have hc : VALID_STATES.contains i.status = false := by
    rw [Bool.eq_false_iff]
    intro hcon
    exact hbad (List.elem_iff.mp hcon)
  exact List.mem_filterMap.mpr ⟨i, hm, by rw [hc]; simp⟩

/-- C6: the Structural Validator passes exactly when its error list is
empty; the error list decomposes into the filename, chapter and
id-uniqueness blocks (none of which reads any status, the uniqueness
block depending only on the heading-scan ids), and an issue with a
status outside the four-value vocabulary contributes the warning naming
its id and the offending value — so an illegal status alone can never
flip the pass/fail outcome. -/
theorem c6_pass_iff_errors_empty_and_illegal_status_warns :
    ∀ (name : String) (lines : List String),
      ((checkOutcome (checkDocument name lines)).1 = true ↔
        (checkDocument name lines).errors = []) ∧
      (checkDocument name lines).errors =
        fileNameErrors name ++ chapterErrors lines ++
          uniquenessErrors (scanHeadings "" lines) ∧
      (∀ i ∈ (checkDocument name lines).report.issues,
        i.status ∉ VALID_STATES →
          statusWarning i.id i.status ∈ (checkDocument name lines).warnings) := by
  intro name lines
  refine ⟨?_, ?_, ?_⟩
  · simp [checkOutcome, List.isEmpty_iff]
  · rw [(checkDocument_fields name lines).1,
      uniquenessErrors_eq_of_ids _ _ (applyStatusTable_ids lines _),
      uniquenessErrors_eq_of_ids _ _ (scanHeadings_ids (metadataRound lines) "" lines)]
  · intro i hm hbad
    rw [(checkDocument_fields name lines).2.1]
    rw [(checkDocument_fields name lines).2.2] at hm
    exact mem_lifecycleWarnings _ i hm hbad

/-- Witness for C6: a document declaring `B-1` with table status `Weird`
gets the corresponding warning. -/
theorem c6_pass_iff_errors_empty_and_illegal_status_warns_witness :
    statusWarning "B-1" "Weird" ∈
      (checkDocument "Review-v1.md"
        ["## [B-1] x", "| B-1 | t | v1 | Weird |"]).warnings :=
  (c6_pass_iff_errors_empty_and_illegal_status_warns "Review-v1.md"
      ["## [B-1] x", "| B-1 | t | v1 | Weird |"]).2.2
    (Issue.mk "B-1" "Blocker" "" "" "" "Weird" 1) (by decide) (by decide)

theorem checkerRowCells_multiword (a b c : List Char) :
    checkerRowCells a b c (" Accepted Risk ".data) = none := by
  unfold checkerRowCells
  cases hI : idCell a
  · rfl
  · cases hB : anyCell b <;> cases hC : anyCell c <;> rfl

theorem trackRowCells_multiword (a b c : List Char) :
    trackRowCells a b c (" Accepted Risk ".data) = none := by
  unfold trackRowCells
  cases hI : idCell a
  · rfl
  · cases hB : anyCell b
    · rfl
    · by_cases hv : vCell c = true <;> simp only [hv, if_true, if_false] <;> rfl

/-- A six-segment line (one four-cell row) yields no match when the cell
matcher rejects its cells. -/
theorem scanRows_six {α : Type}
    (f : List Char → List Char → List Char → List Char → Option α)
    (s0 a b c d e : List Char) (hf : f a b c d = none) :
    scanRows f [s0, a, b, c, d, e] = [] := by
  simp [scanRows, hf]

/-- C7: a status-table row whose status column holds the multi-word
value `Accepted Risk` is not captured by either table grammar — the
checker's status map stays empty, so the heading-declared issue keeps
its heading-scan default status `Open`, and the cross-round tracker
silently skips the row, contributing no history entry. -/
theorem c7_multiword_status_row_not_captured :
    ∀ (head row : String) (lvl : String) (p : Char) (id : String)
      (s1 c2 c3 : List Char) (name rnd : String),
      (lvl, p) ∈ LEVEL_PATTERN →
      headingCapture p head.data = some id →
      splitPipe head.data = [head.data] →
      splitPipe row.data = [[], s1, c2, c3, " Accepted Risk ".data, []] →
      scanRows checkerRowCells (splitPipe row.data) = [] ∧
      scanRows trackRowCells (splitPipe row.data) = [] ∧
      statusTableRows [head, row] = [] ∧
      (∃ i ∈ (checkDocument name [head, row]).report.issues,
        i.id = id ∧ i.status = "Open") ∧
      (∀ i ∈ (checkDocument name [head, row]).report.issues, i.status = "Open") ∧
      track_issues [] [head, row] rnd = [] := by
  intro head row lvl p id s1 c2 c3 name rnd hlp hcap hheadseg hrowseg
  have hchk : scanRows checkerRowCells (splitPipe row.data) = [] := by
    rw [hrowseg]
    exact scanRows_six _ _ _ _ _ _ _ (checkerRowCells_multiword s1 c2 c3)
  have htrk : scanRows trackRowCells (splitPipe row.data) = [] := by
    rw [hrowseg]
    exact scanRows_six _ _ _ _ _ _ _ (trackRowCells_multiword s1 c2 c3)
  have hheadchk : scanRows checkerRowCells (splitPipe head.data) = [] := by
    rw [hheadseg]
    rfl
  have hheadtrk : scanRows trackRowCells (splitPipe head.data) = [] := by
    rw [hheadseg]
    rfl
  have hrows : statusTableRows [head, row] = [] := by
    simp [statusTableRows, hheadchk, hchk]
  have hissues : (checkDocument name [head, row]).report.issues =
      scanHeadings (metadataRound [head, row]) [head, row] := by
    rw [(checkDocument_fields name [head, row]).2.2,
      applyStatusTable_no_rows _ _ hrows]
  refine ⟨hchk, htrk, hrows, ?_, ?_, ?_⟩
  · rw [hissues]
    refine ⟨Issue.mk id lvl "" (metadataRound [head, row])
      (metadataRound [head, row]) "Open" 1, ?_, rfl, rfl⟩
    simp only [scanHeadings, List.enumFrom, List.flatMap_cons, List.flatMap_nil,
      List.append_nil, List.mem_append]
    left
    rw [List.mem_filterMap]
    exact ⟨(lvl, p), hlp, by rw [hcap]; rfl⟩
  · rw [hissues]
    exact scanHeadings_status_open _ _
  · have htm : trackMatches [head, row] = [] := by
      simp [trackMatches, hheadtrk, htrk]
    simp [track_issues, htm]

/-- Witness for C7 at a concrete heading and row. -/
theorem c7_multiword_status_row_not_captured_witness :
    scanRows checkerRowCells
      (splitPipe "| B-1 | Login bug | v1 | Accepted Risk |".data) = [] ∧
    scanRows trackRowCells
      (splitPipe "| B-1 | Login bug | v1 | Accepted Risk |".data) = [] ∧
    statusTableRows
      ["## [B-1] Login bug", "| B-1 | Login bug | v1 | Accepted Risk |"] = [] ∧
    (∃ i ∈ (checkDocument "Review-v1.md"
        ["## [B-1] Login bug",
         "| B-1 | Login bug | v1 | Accepted Risk |"]).report.issues,
      i.id = "B-1" ∧ i.status = "Open") ∧
    (∀ i ∈ (checkDocument "Review-v1.md"
        ["## [B-1] Login bug",
         "| B-1 | Login bug | v1 | Accepted Risk |"]).report.issues,
      i.status = "Open") ∧
    track_issues []
      ["## [B-1] Login bug", "| B-1 | Login bug | v1 | Accepted Risk |"] "1" = [] :=
  c7_multiword_status_row_not_captured "## [B-1] Login bug"
    "| B-1 | Login bug | v1 | Accepted Risk |" "Blocker" 'B' "B-1"
    " B-1 ".data " Login bug ".data " v1 ".data "Review-v1.md" "1"
    (by decide) (by decide) (by decide) (by decide)

/-- C9: the Structural Validator is a deterministic function of the
filename and document content — two runs on the same unchanged document
produce identical error and warning lists. -/
theorem c9_validator_deterministic (name : String) (lines : List String)
    (r1 r2 : CheckerState) (h1 : r1 = checkDocument name lines)
    (h2 : r2 = checkDocument name lines) :
    r1.errors = r2.errors ∧ r1.warnings = r2.warnings := by
  subst h1
  subst h2
  exact ⟨rfl, rfl⟩

/-- Witness for C9: two runs over one concrete document. -/
theorem c9_validator_deterministic_witness :
    (checkDocument "Review-v1.md" ["## [B-1] x"]).errors =
      (checkDocument "Review-v1.md" ["## [B-1] x"]).errors ∧
    (checkDocument "Review-v1.md" ["## [B-1] x"]).warnings =
      (checkDocument "Review-v1.md" ["## [B-1] x"]).warnings :=
  c9_validator_deterministic "Review-v1.md" ["## [B-1] x"] _ _ rfl rfl

end ReviewEngine
